import Mathlib

/-!
Shallow embedding of `src/server.js` (garage-server): a CRUD backend for a
vehicle-repair shop with two fixed slot pools (`slotReparation`, `slotAttente`)
kept in a document store, plus a flat-file fallback dataset.

Conventions of the embedding:
* JS strings from request bodies are `Option String`; a missing field is `none`
  and JS falsiness of a string is `(·.getD "") = ""` (absent or empty).
* Firestore collections are association lists `List (String × α)` from document
  id to document data.
* `new Date()` values are modelled by the abstract type `JsDate`; each request
  receives the current instant as a `Nat` parameter `now`.
* Numeric request fields that the server only stores (never computes with),
  such as `prix` run through `parseFloat`, are kept as their source strings.
* Every handler returns its HTTP status, the relevant state after the call and
  the ordered trace of document-store operations it performed (`StoreOp`).
-/

namespace GarageServer

/-- A JS `Date` as constructed by the server: either `new Date()` at the current
instant (abstract tick `t`) or `new Date(s)` parsed from a request string. -/
inductive JsDate where
  | fromNow (t : Nat)
  | fromString (s : String)
  deriving Repr, DecidableEq

/-- One operation against the document store, recorded in handler traces. -/
inductive StoreOp where
  | read (coll docId : String)
  | readAll (coll : String)
  | listDocs (coll : String)
  | write (coll docId : String)
  | addDoc (coll docId : String)
  | deleteDoc (coll docId : String)
  | batchUpdate (coll : String) (docIds : List String)
  | batchDelete (coll : String) (docIds : List String)
  deriving Repr, DecidableEq

/-- Is the store operation a mutation (write / add / delete / batch)? -/
def StoreOp.isMutation : StoreOp → Bool
  | .read _ _ => false
  | .readAll _ => false
  | .listDocs _ => false
  | .write _ _ => true
  | .addDoc _ _ => true
  | .deleteDoc _ _ => true
  | .batchUpdate _ _ => true
  | .batchDelete _ _ => true

/-- The mutations contained in a trace of store operations. -/
def mutationsOf (ops : List StoreOp) : List StoreOp :=
  ops.filter StoreOp.isMutation

/-- `collection.doc(id).get()`: the document data, if the document exists. -/
def getDoc {α : Type} (c : List (String × α)) (docId : String) : Option α :=
  (c.find? (fun e => e.1 == docId)).map (fun e => e.2)

/-- `collection.doc(id).set(d)`: replace the document if present, else create it. -/
def setDoc {α : Type} (c : List (String × α)) (docId : String) (d : α) :
    List (String × α) :=
  if (c.find? (fun e => e.1 == docId)).isSome then
    c.map (fun e => if e.1 == docId then (docId, d) else e)
  else
    c ++ [(docId, d)]

/-- `collection.doc(id).delete()`: remove the document; no-op when absent. -/
def removeDoc {α : Type} (c : List (String × α)) (docId : String) :
    List (String × α) :=
  c.filter (fun e => !(e.1 == docId))

/-- The document ids present in a collection. -/
def docKeys {α : Type} (c : List (String × α)) : List String :=
  c.map (fun e => e.1)

/-- A document of the `slotReparation` or `slotAttente` collection.  All fields
are optional because slot documents are created by several code paths that set
different subsets of them. -/
structure SlotDoc where
  idReparation : Option String := none
  startTime : Option JsDate := none
  createdAt : Option JsDate := none
  slotId : Option Nat := none
  deriving Repr, DecidableEq

/-- A slot-pool collection in the document store. -/
abbrev SlotCol := List (String × SlotDoc)

/-- The fixed slot-identity list of the repair pool, scanned in this order
(`const slotIds = ['1', '2', '3']`). -/
def slotIdsReparation : List String := ["1", "2", "3"]

/-- Eligibility test of the repair-pool assign loop: the document does not
exist, or `data.idReparation || ''` is empty (`!currentRep`). -/
def slotReparationFree (c : SlotCol) (sid : String) : Bool :=
  match getDoc c sid with
  | none => true
  | some d => (d.idReparation.getD "") == ""

/-- The `for (const slotId of slotIds)` loop of `POST /api/slotReparation/assign`:
read each slot in order, stop at the first free one.  Returns the reads
performed and the chosen slot id, if any. -/
def scanSlotsReparation (c : SlotCol) : List String → List StoreOp × Option String
  | [] => ([], none)
  | sid :: rest =>
    if slotReparationFree c sid then
      ([StoreOp.read "slotReparation" sid], some sid)
    else
      let (ops, r) := scanSlotsReparation c rest
      (StoreOp.read "slotReparation" sid :: ops, r)

/-- The document written by a successful assign: `set({idReparation, startTime,
createdAt}, {merge: true})` — the three fields are overwritten, any other field
of an existing document is kept. -/
def mergeAssignFields (old : Option SlotDoc) (idRep : String) (now : Nat) : SlotDoc :=
  match old with
  | none =>
    { idReparation := some idRep, startTime := some (.fromNow now),
      createdAt := some (.fromNow now) }
  | some d =>
    { d with idReparation := some idRep, startTime := some (.fromNow now),
             createdAt := some (.fromNow now) }

/-- JS `Number(s)` as used on the chosen slot id (`Number(chosenSlotNumber)`);
only ever applied to members of `slotIdsReparation`, so it is modelled on the
canonical slot-id strings and is `none` elsewhere. -/
def jsNumberOfSlotId (s : String) : Option Nat :=
  if s == "1" then some 1
  else if s == "2" then some 2
  else if s == "3" then some 3
  else none

/-- Response of `POST /api/slotReparation/assign`. -/
structure AssignResponse where
  status : Nat
  error : Option String := none
  message : Option String := none
  slotNumber : Option Nat := none
  slotId : Option String := none
  idReparation : Option String := none
  deriving Repr, DecidableEq

/-- Outcome of a handler over a slot-pool collection. -/
structure SlotOut (ρ : Type) where
  resp : ρ
  state : SlotCol
  ops : List StoreOp
  deriving Repr, DecidableEq

/-- `POST /api/slotReparation/assign`: validate `idReparation`, require
Firebase, scan slots 1,2,3 in order and claim the first free one with a merged
write; 400 when all three are occupied. -/
def postSlotReparationAssign (idReparation : Option String) (useFirebase : Bool)
    (c : SlotCol) (now : Nat) : SlotOut AssignResponse :=
  if (idReparation.getD "") == "" then
    { resp := { status := 400, error := some "idReparation est requis" },
      state := c, ops := [] }
  else if !useFirebase then
    { resp := { status := 400, error := some "Firebase non disponible" },
      state := c, ops := [] }
  else
    let idRep := idReparation.getD ""
    let scanned := scanSlotsReparation c slotIdsReparation
    match scanned.2 with
    | none =>
      { resp := { status := 400, error := some "Les trois slots sont déjà occupés" },
        state := c, ops := scanned.1 }
    | some sid =>
      { resp := { status := 200, message := some "Slot assigné avec succès",
                  slotNumber := jsNumberOfSlotId sid, slotId := some sid,
                  idReparation := some idRep },
        state := setDoc c sid (mergeAssignFields (getDoc c sid) idRep now),
        ops := scanned.1 ++ [StoreOp.write "slotReparation" sid] }

/-- Response of `POST /api/slotReparation` (plain create). -/
structure CreateSlotResponse where
  status : Nat
  id : Option String := none
  message : Option String := none
  error : Option String := none
  deriving Repr, DecidableEq

/-- `POST /api/slotReparation`: validate the body, then `add` a new document
under a store-generated identifier (modelled by the parameter `freshId`). -/
def postSlotReparation (idReparation startTime : Option String) (useFirebase : Bool)
    (freshId : String) (c : SlotCol) (now : Nat) : SlotOut CreateSlotResponse :=
  if (idReparation.getD "") == "" || (startTime.getD "") == "" then
    { resp := { status := 400, error := some "idReparation et startTime sont requis" },
      state := c, ops := [] }
  else if useFirebase then
    { resp := { status := 200, id := some freshId, message := some "Slot créé avec succès" },
      state := c ++ [(freshId,
        { idReparation := idReparation,
          startTime := some (.fromString (startTime.getD "")),
          createdAt := some (.fromNow now) })],
      ops := [StoreOp.addDoc "slotReparation" freshId] }
  else
    { resp := { status := 400, error := some "Firebase non disponible" },
      state := c, ops := [] }

/-- `DELETE /api/slotReparation/:id`: unconditionally delete the document. -/
def deleteSlotReparation (docId : String) (useFirebase : Bool) (c : SlotCol) :
    SlotOut Nat :=
  if useFirebase then
    { resp := 200, state := removeDoc c docId,
      ops := [StoreOp.deleteDoc "slotReparation" docId] }
  else
    { resp := 400, state := c, ops := [] }

/-- Response of `POST /api/slotAttente`. -/
structure AttenteResponse where
  status : Nat
  error : Option String := none
  id : Option String := none
  slotId : Option Nat := none
  message : Option String := none
  deriving Repr, DecidableEq

/-- `POST /api/slotAttente` (the waiting-pool claim): validate the body, then
take position 1 if its document does not exist, else position 2 if its document
does not exist, else fail with 409.  Note the eligibility test here is document
existence only — `idReparation` is not inspected. -/
def postSlotAttente (idReparation startTime : Option String) (useFirebase : Bool)
    (c : SlotCol) (now : Nat) : SlotOut AttenteResponse :=
  if (idReparation.getD "") == "" || (startTime.getD "") == "" then
    { resp := { status := 400, error := some "idReparation et startTime sont requis" },
      state := c, ops := [] }
  else if !useFirebase then
    { resp := { status := 400, error := some "Firebase non disponible" },
      state := c, ops := [] }
  else
    let base : SlotDoc :=
      { idReparation := idReparation,
        startTime := some (.fromString (startTime.getD "")),
        createdAt := some (.fromNow now) }
    match getDoc c "1" with
    | none =>
      { resp := { status := 200, id := some "1", slotId := some 1,
                  message := some "Slot d\x27attente créé sur la position 1" },
        state := setDoc c "1" { base with slotId := some 1 },
        ops := [StoreOp.read "slotAttente" "1", StoreOp.write "slotAttente" "1"] }
    | some _ =>
      match getDoc c "2" with
      | none =>
        { resp := { status := 200, id := some "2", slotId := some 2,
                    message := some "Slot d\x27attente créé sur la position 2" },
          state := setDoc c "2" { base with slotId := some 2 },
          ops := [StoreOp.read "slotAttente" "1", StoreOp.read "slotAttente" "2",
                  StoreOp.write "slotAttente" "2"] }
      | some _ =>
        { resp := { status := 409,
                    error := some "Aucun slot d\x27attente disponible (1 et 2 déjà occupés)" },
          state := c,
          ops := [StoreOp.read "slotAttente" "1", StoreOp.read "slotAttente" "2"] }

/-- `GET /api/slotAttente`: list all documents, filtering out `_metadata`. -/
def getSlotAttenteList (useFirebase : Bool) (c : SlotCol) : List (String × SlotDoc) :=
  if useFirebase then c.filter (fun e => !(e.1 == "_metadata")) else []

/-- `GET /api/slotReparation`: list all documents, filtering out `_metadata`. -/
def getSlotReparationList (useFirebase : Bool) (c : SlotCol) : List (String × SlotDoc) :=
  if useFirebase then c.filter (fun e => !(e.1 == "_metadata")) else []

/-- Response of `GET /api/slotAttente/reset`. -/
structure ResetResponse where
  status : Nat
  success : Option Bool := none
  deleted : Option Nat := none
  message : Option String := none
  error : Option String := none
  deriving Repr, DecidableEq

/-- `GET /api/slotAttente/reset`: `listDocuments()` (every document reference of
the collection, `_metadata` included), then batch-delete them all and report the
count; 0 when the collection is empty. -/
def getSlotAttenteReset (useFirebase : Bool) (c : SlotCol) : SlotOut ResetResponse :=
  if !useFirebase then
    { resp := { status := 400, error := some "Firebase non disponible" },
      state := c, ops := [] }
  else if c.length == 0 then
    { resp := { status := 200, success := some true, deleted := some 0,
                message := some "Aucun document slotAttente à supprimer" },
      state := c, ops := [StoreOp.listDocs "slotAttente"] }
  else
    { resp := { status := 200, success := some true, deleted := some c.length,
                message := some "slotAttente vidé." },
      state := [],
      ops := [StoreOp.listDocs "slotAttente",
              StoreOp.batchDelete "slotAttente" (docKeys c)] }

/-- `DELETE /api/slotAttente/:id`: unconditionally delete the document. -/
def deleteSlotAttente (docId : String) (useFirebase : Bool) (c : SlotCol) :
    SlotOut Nat :=
  if useFirebase then
    { resp := 200, state := removeDoc c docId,
      ops := [StoreOp.deleteDoc "slotAttente" docId] }
  else
    { resp := 400, state := c, ops := [] }

/-! ## Entity documents -/

/-- The denormalised owner summary embedded in a `voitures` document. -/
structure OwnerRef where
  _id : String := ""
  nom : String := ""
  prenom : String := ""
  deriving Repr, DecidableEq

/-- The denormalised car-type summary embedded in a `voitures` document. -/
structure TypeRef where
  _id : String := ""
  nomType : String := ""
  deriving Repr, DecidableEq

/-- A `voitures` document / fallback vehicle. -/
structure Voiture where
  _id : Option String := none
  marque : String := ""
  proprietaire : Option OwnerRef := none
  type : Option TypeRef := none
  reparations : List String := []
  createdAt : Option JsDate := none
  updatedAt : Option JsDate := none
  deriving Repr, DecidableEq

/-- A `proprietaires` document. -/
structure Proprietaire where
  email : String := ""
  nom : String := ""
  prenom : String := ""
  voitures : List String := []
  createdAt : Option JsDate := none
  updatedAt : Option JsDate := none
  deriving Repr, DecidableEq

/-- A fallback client record (only its presence matters to the handlers
modelled here). -/
structure Client where
  _id : Option String := none
  deriving Repr, DecidableEq

/-- A `typesVoiture` document. -/
structure TypeVoiture where
  nomType : String := ""
  deriving Repr, DecidableEq

/-- The vehicle reference carried by a repair (`reparation.voiture`); the
handlers only inspect its `_id`. -/
structure VoitureRef where
  _id : Option String := none
  deriving Repr, DecidableEq

/-- A `reparations` document / fallback repair. -/
structure Reparation where
  _id : Option String := none
  voiture : Option VoitureRef := none
  pieces : List String := []
  statut : String := ""
  description : String := ""
  dateDebut : Option JsDate := none
  createdAt : Option JsDate := none
  updatedAt : Option JsDate := none
  deriving Repr, DecidableEq

/-- The denormalised part-type summary embedded in a `piecesReparables`
document. -/
structure PieceTypeRef where
  _id : String := ""
  nomTypePieces : String := ""
  deriving Repr, DecidableEq

/-- A `typesPieces` document / fallback part type. -/
structure PieceType where
  _id : Option String := none
  nomTypePieces : String := ""
  createdAt : Option JsDate := none
  updatedAt : Option JsDate := none
  deriving Repr, DecidableEq

/-- A `piecesReparables` document / fallback part.  `prix` is stored as the
request string (`parseFloat` is kept abstract: no handler computes with it). -/
structure Piece where
  _id : Option String := none
  nomPieces : String := ""
  prix : String := ""
  type : Option PieceTypeRef := none
  createdAt : Option JsDate := none
  updatedAt : Option JsDate := none
  deriving Repr, DecidableEq

/-- A `finReparationPieces` document (part-repair completion). -/
structure FinReparationPiece where
  _id : Option String := none
  reparation : String := ""
  piece : String := ""
  dateFinReparation : Option JsDate := none
  createdAt : Option JsDate := none
  deriving Repr, DecidableEq

/-- A `historiquePaiement` document / fallback payment. -/
structure Paiement where
  _id : Option String := none
  reparationId : Option String := none
  clientId : Option String := none
  montant : String := ""
  datePaiement : Option JsDate := none
  methode : String := ""
  statut : String := ""
  notes : String := ""
  numReference : String := ""
  createdAt : Option JsDate := none
  deriving Repr, DecidableEq

/-- A `notifications` document / fallback notification. -/
structure Notification where
  _id : Option String := none
  voitureId : Option String := none
  read : Bool := false
  deriving Repr, DecidableEq

/-- The in-memory fallback dataset loaded from `seedData.json` at startup.
Each collection is optional: the JSON file may lack any of the keys. -/
structure SeedData where
  voitures : Option (List Voiture) := none
  clients : Option (List Client) := none
  proprietaires : Option (List Proprietaire) := none
  reparations : Option (List Reparation) := none
  finReparationPieces : Option (List FinReparationPiece) := none
  piecesReparables : Option (List Piece) := none
  typesPieces : Option (List PieceType) := none
  typesVoiture : Option (List TypeVoiture) := none
  historiquePaiement : Option (List Paiement) := none
  notifications : Option (List Notification) := none
  deriving Repr, DecidableEq

/-! ## Sequential ID minting -/

/-- JS `String.prototype.startsWith`, implemented over the character lists so
that it evaluates by kernel reduction. -/
def strStartsWith (s pre : String) : Bool :=
  pre.toList.isPrefixOf s.toList

/-- JS `parseInt(s, 10)` restricted to the shapes that occur here: the value of
the longest leading digit run, `none` (NaN) when the string does not start with
a digit. -/
def parseIntLeading (s : String) : Option Nat :=
  let digits := s.toList.takeWhile (fun ch => ch.isDigit)
  if digits.isEmpty then none
  else some (digits.foldl (fun n ch => 10 * n + (ch.toNat - 48)) 0)

/-- JS `String(n).padStart(3, '0')`. -/
def padStart3 (s : String) : String :=
  if 3 ≤ s.length then s
  else if s.length == 2 then "0" ++ s
  else if s.length == 1 then "00" ++ s
  else "000" ++ s

/-- One step of the `reparationsSnapshot.docs.forEach` accumulation in
`POST /api/reparations` (document-store mode): keep the running maximum of the
numeric suffixes of document ids starting with `REP-`. -/
def repSuffixStepFirebase (acc : Nat) (docId : String) : Nat :=
  if strStartsWith docId "REP-" then
    match parseIntLeading (docId.drop 4) with
    | some num => if num > acc then num else acc
    | none => acc
  else acc

/-- The maximum `REP-` suffix among document ids, as computed by the
document-store branch of `POST /api/reparations`. -/
def repMaxFirebase (docIds : List String) : Nat :=
  docIds.foldl repSuffixStepFirebase 0

/-- The new repair id minted by the document-store branch of
`POST /api/reparations`. -/
def mintReparationIdFirebase (docIds : List String) : String :=
  "REP-" ++ padStart3 (toString (repMaxFirebase docIds + 1))

/-- One step of the `reparations.reduce` accumulation in the fallback branch of
`POST /api/reparations`: same maximum-suffix derivation, over each repair's
`_id` field (`r._id && r._id.startsWith('REP-')`). -/
def repSuffixStepFallback (acc : Nat) (r : Reparation) : Nat :=
  let rid := r._id.getD ""
  if rid != "" && strStartsWith rid "REP-" then
    match parseIntLeading (rid.drop 4) with
    | some num => if num > acc then num else acc
    | none => acc
  else acc

/-- The maximum `REP-` suffix among fallback repairs. -/
def repMaxFallback (reps : List Reparation) : Nat :=
  reps.foldl repSuffixStepFallback 0

/-- The new repair id minted by the fallback branch of `POST /api/reparations`. -/
def mintReparationIdFallback (reps : List Reparation) : String :=
  "REP-" ++ padStart3 (toString (repMaxFallback reps + 1))

/-- The new part id minted by the document-store branch of `POST /api/pieces`:
`PR-` followed by the padded snapshot size plus one (count-based, not
maximum-based). -/
def mintPieceIdFirebase (docIds : List String) : String :=
  "PR-" ++ padStart3 (toString (docIds.length + 1))

/-- The new part id minted by the fallback branch of `POST /api/pieces`:
`PR-` followed by the padded array length plus one. -/
def mintPieceIdFallback (pieces : List Piece) : String :=
  "PR-" ++ padStart3 (toString (pieces.length + 1))

/-- The new part-type id minted by the fallback branch of
`POST /api/typesPieces` (count-based). -/
def mintTypePieceIdFallback (types : List PieceType) : String :=
  "TP-" ++ padStart3 (toString (types.length + 1))

/-! ## Fallback-mode mutation handlers

Each definition translates one handler's shared validation together with its
`else` (JSON / fallback) branch.  `fileWritten` records whether the handler
executed `fs.writeFileSync(seedDataPath, ...)` before responding. -/

/-- Outcome of a fallback-branch handler. -/
structure FallbackOut where
  status : Nat
  error : Option String := none
  deleted : Option Nat := none
  modified : Option Nat := none
  seed : SeedData
  fileWritten : Bool := false
  deriving Repr, DecidableEq

/-- Mutate the first list element satisfying `p` (the JS handlers mutate the
single object returned by `Array.prototype.find` in place). -/
def updateFirst {α : Type} (p : α → Bool) (f : α → α) : List α → List α
  | [] => []
  | x :: xs => if p x then f x :: xs else x :: updateFirst p f xs

/-- `PUT /api/reparations/:id`, fallback branch: require `statut`, find the
repair by `_id`, update its status in memory and respond — without any
`fs.writeFileSync` call (unlike every other fallback mutation). -/
def putReparationFallback (reqId : String) (statut : Option String)
    (seed : SeedData) : FallbackOut :=
  if (statut.getD "") == "" then
    { status := 400, error := some "Le champ statut est requis", seed := seed }
  else
    let all := seed.reparations.getD []
    match all.find? (fun r => r._id == some reqId) with
    | none => { status := 404, error := some "Réparation non trouvée", seed := seed }
    | some _ =>
      let updated := updateFirst (fun r => r._id == some reqId)
        (fun r => { r with statut := statut.getD "" }) all
      { status := 200,
        seed := { seed with reparations := some updated },
        fileWritten := false }

/-- `POST /api/reparations`, fallback branch: require `voiture._id`, mint a
`REP-` id (maximum-suffix derivation), append the repair and rewrite the whole
seed file. -/
def postReparationsFallback (voiture : Option VoitureRef) (pieces : Option (List String))
    (statut description dateDebut : Option String) (seed : SeedData) (now : Nat) :
    FallbackOut :=
  match voiture with
  | none =>
    { status := 400, error := some "Le champ voiture avec _id est requis", seed := seed }
  | some v =>
    if (v._id.getD "") == "" then
      { status := 400, error := some "Le champ voiture avec _id est requis", seed := seed }
    else
      let reparations := seed.reparations.getD []
      let newId := mintReparationIdFallback reparations
      let newReparation : Reparation :=
        { _id := some newId, voiture := some v, pieces := pieces.getD [],
          statut := if (statut.getD "") == "" then "EN_ATTENTE" else statut.getD "",
          description := description.getD "",
          dateDebut := match dateDebut with
            | some s => if s == "" then some (.fromNow now) else some (.fromString s)
            | none => some (.fromNow now) }
      { status := 200,
        seed := { seed with reparations := some (reparations ++ [newReparation]) },
        fileWritten := true }

/-- `POST /api/pieces`, fallback branch: require the three fields, resolve the
part type from the fallback dataset (404 when missing, without mutation),
mint a count-based `PR-` id, append and rewrite the seed file. -/
def postPiecesFallback (nomPieces prix typeId : Option String) (seed : SeedData) :
    FallbackOut :=
  if (nomPieces.getD "") == "" || (prix.getD "") == "" || (typeId.getD "") == "" then
    { status := 400, error := some "nomPieces, prix et typeId sont requis", seed := seed }
  else
    let pieces := seed.piecesReparables.getD []
    match (seed.typesPieces.getD []).find? (fun t => t._id == some (typeId.getD "")) with
    | none => { status := 404, error := some "Type de pièce non trouvé", seed := seed }
    | some t =>
      let newPiece : Piece :=
        { _id := some (mintPieceIdFallback pieces),
          nomPieces := nomPieces.getD "", prix := prix.getD "",
          type := some { _id := typeId.getD "", nomTypePieces := t.nomTypePieces } }
      { status := 200,
        seed := { seed with piecesReparables := some (pieces ++ [newPiece]) },
        fileWritten := true }

/-- `PUT /api/pieces/:id`, fallback branch: require at least one field; find
the part; apply `nomPieces` and `prix` in place; then, if `typeId` is given,
resolve the type — a missing type returns 404 *after* the earlier in-place
mutations, without rewriting the file; otherwise rewrite the seed file. -/
def putPieceFallback (reqId : String) (nomPieces prix typeId : Option String)
    (seed : SeedData) : FallbackOut :=
  if (nomPieces.getD "") == "" && (prix.getD "") == "" && (typeId.getD "") == "" then
    { status := 400,
      error := some "Au moins un champ (nomPieces, prix ou typeId) est requis",
      seed := seed }
  else
    let pieces := seed.piecesReparables.getD []
    match pieces.find? (fun p => p._id == some reqId) with
    | none => { status := 404, error := some "Pièce non trouvée", seed := seed }
    | some _ =>
      let upd1 : Piece → Piece := fun p =>
        let p := if (nomPieces.getD "") == "" then p else { p with nomPieces := nomPieces.getD "" }
        if (prix.getD "") == "" then p else { p with prix := prix.getD "" }
      let partial1 := updateFirst (fun p => p._id == some reqId) upd1 pieces
      if (typeId.getD "") == "" then
        { status := 200,
          seed := { seed with piecesReparables := some partial1 },
          fileWritten := true }
      else
        match (seed.typesPieces.getD []).find? (fun t => t._id == some (typeId.getD "")) with
        | none =>
          { status := 404, error := some "Type de pièce non trouvé",
            seed := { seed with piecesReparables := some partial1 },
            fileWritten := false }
        | some t =>
          let newTypeRef : PieceTypeRef :=
            { _id := typeId.getD "", nomTypePieces := t.nomTypePieces }
          let upd2 : Piece → Piece := fun p => { upd1 p with type := some newTypeRef }
          let updated2 := updateFirst (fun p => p._id == some reqId) upd2 pieces
          { status := 200,
            seed := { seed with piecesReparables := some updated2 },
            fileWritten := true }

/-- `DELETE /api/pieces/:id`, fallback branch: find the part by `_id`, splice
it out and rewrite the seed file; 404 without mutation when absent. -/
def deletePieceFallback (reqId : String) (seed : SeedData) : FallbackOut :=
  let pieces := seed.piecesReparables.getD []
  match pieces.findIdx? (fun p => p._id == some reqId) with
  | none => { status := 404, error := some "Pièce non trouvée", seed := seed }
  | some i =>
    let spliced := pieces.take i ++ pieces.drop (i + 1)
    { status := 200,
      seed := { seed with piecesReparables := some spliced },
      fileWritten := true }

/-- `POST /api/typesPieces`, fallback branch: require `nomTypePieces`, mint a
count-based `TP-` id, append and rewrite the seed file. -/
def postTypesPiecesFallback (nomTypePieces : Option String) (seed : SeedData) :
    FallbackOut :=
  if (nomTypePieces.getD "") == "" then
    { status := 400, error := some "nomTypePieces est requis", seed := seed }
  else
    let types := seed.typesPieces.getD []
    let newType : PieceType :=
      { _id := some (mintTypePieceIdFallback types),
        nomTypePieces := nomTypePieces.getD "" }
    { status := 200,
      seed := { seed with typesPieces := some (types ++ [newType]) },
      fileWritten := true }

/-- `GET /api/finReparationPieces/reset`, fallback branch: when the collection
is an array, record its length, empty it and rewrite the seed file; otherwise
report 0 deletions without touching the file. -/
def resetFinReparationPiecesFallback (seed : SeedData) : FallbackOut :=
  match seed.finReparationPieces with
  | some l =>
    { status := 200, deleted := some l.length,
      seed := { seed with finReparationPieces := some [] }, fileWritten := true }
  | none =>
    { status := 200, deleted := some 0, seed := seed, fileWritten := false }

/-- `setAllReparationsEnCours`, fallback branch: force every repair's status to
`EN_COURS` and rewrite the seed file (the file is rewritten even when the
dataset holds no repairs). -/
def setAllReparationsEnCoursFallback (seed : SeedData) : FallbackOut :=
  let reps := seed.reparations.getD []
  { status := 200, modified := some reps.length,
    seed := { seed with reparations :=
      seed.reparations.map (fun l => l.map (fun r => { r with statut := "EN_COURS" })) },
    fileWritten := true }

/-! ## Health endpoint -/

/-- The per-collection counts of the health response. -/
structure HealthCounts where
  voitures : Nat
  clients : Nat
  proprietaires : Nat
  reparations : Nat
  finReparationPieces : Nat
  pieces : Nat
  notifications : Nat
  deriving Repr, DecidableEq

/-- Response of `GET /api/health`. -/
structure HealthResponse where
  status : String
  message : String
  firebaseConnected : Bool
  dataAvailable : HealthCounts
  deriving Repr, DecidableEq

/-- The document-store contents reachable from the server, as far as the
handlers embedded here touch them; the health handler receives it to make its
independence from the store provable. -/
structure FirestoreState where
  slotReparation : SlotCol := []
  slotAttente : SlotCol := []
  reparations : List (String × Reparation) := []
  piecesReparables : List (String × Piece) := []
  voitures : List (String × Voiture) := []
  deriving Repr, DecidableEq

/-- `GET /api/health`: reports the store mode flag, and counts taken from the
in-memory seed dataset in every mode (`seedData.x ? seedData.x.length : 0`) —
the document store is never consulted. -/
def getHealth (useFirebase : Bool) (seed : SeedData) (store : FirestoreState) :
    HealthResponse :=
  { status := "OK",
    message := "Serveur Node.js fonctionne correctement",
    firebaseConnected := useFirebase,
    dataAvailable :=
      { voitures := (seed.voitures.map List.length).getD 0,
        clients := (seed.clients.map List.length).getD 0,
        proprietaires := (seed.proprietaires.map List.length).getD 0,
        reparations := (seed.reparations.map List.length).getD 0,
        finReparationPieces := (seed.finReparationPieces.map List.length).getD 0,
        pieces := (seed.piecesReparables.map List.length).getD 0,
        notifications := (seed.notifications.map List.length).getD 0 } }

/-! ## Filtered list endpoints -/

/-- `GET /api/reparations/voiture/:voitureId`, document-store branch.  Models
the native query `where('voiture._id', '==', voitureId)` over the collection:
a document matches when the nested field exists and equals the parameter. -/
def reparationsByVoitureFirestore (docs : List (String × Reparation))
    (voitureId : String) : List (String × Reparation) :=
  docs.filter (fun e => (e.2.voiture.bind (fun v => v._id)) == some voitureId)

/-- `GET /api/reparations/voiture/:voitureId`, fallback branch: the linear scan
`(seedData.reparations || []).filter(r => r.voiture?._id === voitureId)`. -/
def reparationsByVoitureFallback (reps : List Reparation) (voitureId : String) :
    List Reparation :=
  reps.filter (fun r =>
    match r.voiture with
    | none => false
    | some v =>
      match v._id with
      | none => false
      | some s => s == voitureId)

/-- `GET /api/historiquePaiement/reparation/:reparationId`, document-store
branch: native query `where('reparationId', '==', reparationId)`. -/
def paiementsByReparationFirestore (docs : List (String × Paiement))
    (reparationId : String) : List (String × Paiement) :=
  docs.filter (fun e => e.2.reparationId == some reparationId)

/-- `GET /api/historiquePaiement/reparation/:reparationId`, fallback branch:
`all.filter(p => p.reparationId === reparationId)`. -/
def paiementsByReparationFallback (paiements : List Paiement)
    (reparationId : String) : List Paiement :=
  paiements.filter (fun p =>
    match p.reparationId with
    | none => false
    | some s => s == reparationId)

/-- `GET /api/historiquePaiement/client/:clientId`, document-store branch:
native query `where('clientId', '==', clientId)`. -/
def paiementsByClientFirestore (docs : List (String × Paiement))
    (clientId : String) : List (String × Paiement) :=
  docs.filter (fun e => e.2.clientId == some clientId)

/-- `GET /api/historiquePaiement/client/:clientId`, fallback branch:
`all.filter(p => p.clientId === clientId)`. -/
def paiementsByClientFallback (paiements : List Paiement) (clientId : String) :
    List Paiement :=
  paiements.filter (fun p =>
    match p.clientId with
    | none => false
    | some s => s == clientId)

/-! ## Create handlers over the document store

Each definition translates one create endpoint: the shared validation first,
then the document-store branch (`useFirebase`), recording every store
operation.  In fallback mode these endpoints answer 400 `Firebase non
disponible` (except where a fallback branch exists, embedded separately
above). -/

/-- Outcome of a handler over one document-store collection of type `α`. -/
structure ApiOut (α : Type) where
  status : Nat
  error : Option String := none
  coll : List (String × α)
  ops : List StoreOp
  deriving Repr, DecidableEq

/-- `POST /api/voitures`: require `marque`, `proprietaireId`, `typeId`; read
the owner and the car type (both reads happen before either existence check),
404 when one is missing, else `add` the denormalised vehicle under a
store-generated id and read it back. -/
def postVoitures (marque proprietaireId typeId : Option String) (useFirebase : Bool)
    (proprietaires : List (String × Proprietaire))
    (typesVoiture : List (String × TypeVoiture))
    (voitures : List (String × Voiture)) (freshId : String) (now : Nat) :
    ApiOut Voiture :=
  if (marque.getD "") == "" || (proprietaireId.getD "") == "" || (typeId.getD "") == "" then
    { status := 400, error := some "marque, proprietaireId et typeId sont requis",
      coll := voitures, ops := [] }
  else if useFirebase then
    let pid := proprietaireId.getD ""
    let tid := typeId.getD ""
    let ops0 := [StoreOp.read "proprietaires" pid, StoreOp.read "typesVoiture" tid]
    match getDoc proprietaires pid with
    | none =>
      { status := 404, error := some "Propriétaire non trouvé",
        coll := voitures, ops := ops0 }
    | some prop =>
      match getDoc typesVoiture tid with
      | none =>
        { status := 404, error := some "Type de voiture non trouvé",
          coll := voitures, ops := ops0 }
      | some tv =>
        let voiture : Voiture :=
          { marque := marque.getD "",
            proprietaire := some { _id := pid, nom := prop.nom, prenom := prop.prenom },
            type := some { _id := tid, nomType := tv.nomType },
            reparations := [],
            createdAt := some (.fromNow now), updatedAt := some (.fromNow now) }
        { status := 200, coll := voitures ++ [(freshId, voiture)],
          ops := ops0 ++ [StoreOp.addDoc "voitures" freshId,
                          StoreOp.read "voitures" freshId] }
  else
    { status := 400, error := some "Firebase non disponible",
      coll := voitures, ops := [] }

/-- `POST /api/proprietaires`: require `uid`, `email`, `nom`, `prenom`; create
the owner document keyed by the Firebase Auth uid and read it back. -/
def postProprietaires (uid email nom prenom : Option String) (useFirebase : Bool)
    (proprietaires : List (String × Proprietaire)) (now : Nat) :
    ApiOut Proprietaire :=
  if (uid.getD "") == "" || (email.getD "") == "" || (nom.getD "") == "" ||
      (prenom.getD "") == "" then
    { status := 400, error := some "uid, email, nom et prenom sont requis",
      coll := proprietaires, ops := [] }
  else if useFirebase then
    let theUid := uid.getD ""
    let proprietaire : Proprietaire :=
      { email := email.getD "", nom := nom.getD "", prenom := prenom.getD "",
        voitures := [],
        createdAt := some (.fromNow now), updatedAt := some (.fromNow now) }
    { status := 200, coll := setDoc proprietaires theUid proprietaire,
      ops := [StoreOp.write "proprietaires" theUid,
              StoreOp.read "proprietaires" theUid] }
  else
    { status := 400, error := some "Firebase non disponible",
      coll := proprietaires, ops := [] }

/-- `POST /api/reparations`, document-store branch: require `voiture._id`,
scan the whole collection to mint a maximum-suffix `REP-` id, write the new
repair under that id and read it back. -/
def postReparationsFirebase (voiture : Option VoitureRef)
    (pieces : Option (List String)) (statut description dateDebut : Option String)
    (reparations : List (String × Reparation)) (now : Nat) : ApiOut Reparation :=
  match voiture with
  | none =>
    { status := 400, error := some "Le champ voiture avec _id est requis",
      coll := reparations, ops := [] }
  | some v =>
    if (v._id.getD "") == "" then
      { status := 400, error := some "Le champ voiture avec _id est requis",
        coll := reparations, ops := [] }
    else
      let newId := mintReparationIdFirebase (docKeys reparations)
      let reparation : Reparation :=
        { _id := some newId, voiture := some v, pieces := pieces.getD [],
          statut := if (statut.getD "") == "" then "EN_ATTENTE" else statut.getD "",
          description := description.getD "",
          dateDebut := match dateDebut with
            | some s => if s == "" then some (.fromNow now) else some (.fromString s)
            | none => some (.fromNow now),
          createdAt := some (.fromNow now), updatedAt := some (.fromNow now) }
      { status := 200, coll := setDoc reparations newId reparation,
        ops := [StoreOp.readAll "reparations",
                StoreOp.write "reparations" newId,
                StoreOp.read "reparations" newId] }

/-- `POST /api/finReparationPieces`: require `reparation`, `piece`,
`dateFinReparation`; `add` the completion under a store-generated id and read
it back. -/
def postFinReparationPieces (reparation piece dateFinReparation : Option String)
    (useFirebase : Bool) (finReps : List (String × FinReparationPiece))
    (freshId : String) (now : Nat) : ApiOut FinReparationPiece :=
  if (reparation.getD "") == "" || (piece.getD "") == "" ||
      (dateFinReparation.getD "") == "" then
    { status := 400, error := some "reparation, piece et dateFinReparation sont requis",
      coll := finReps, ops := [] }
  else if useFirebase then
    let doc : FinReparationPiece :=
      { reparation := reparation.getD "", piece := piece.getD "",
        dateFinReparation := some (.fromString (dateFinReparation.getD "")),
        createdAt := some (.fromNow now) }
    { status := 200, coll := finReps ++ [(freshId, doc)],
      ops := [StoreOp.addDoc "finReparationPieces" freshId,
              StoreOp.read "finReparationPieces" freshId] }
  else
    { status := 400, error := some "Firebase non disponible",
      coll := finReps, ops := [] }

/-- `POST /api/historiquePaiement`: require `reparationId`, `clientId`,
`montant`, `datePaiement`; `add` the payment under a store-generated id and
read it back. -/
def postHistoriquePaiement
    (reparationId clientId montant datePaiement methode statut notes numReference :
      Option String)
    (useFirebase : Bool) (paiements : List (String × Paiement)) (freshId : String)
    (now : Nat) : ApiOut Paiement :=
  if (reparationId.getD "") == "" || (clientId.getD "") == "" ||
      (montant.getD "") == "" || (datePaiement.getD "") == "" then
    { status := 400,
      error := some "reparationId, clientId, montant et datePaiement sont requis",
      coll := paiements, ops := [] }
  else if useFirebase then
    let doc : Paiement :=
      { reparationId := reparationId, clientId := clientId,
        montant := montant.getD "",
        datePaiement := some (.fromString (datePaiement.getD "")),
        methode := if (methode.getD "") == "" then "especes" else methode.getD "",
        statut := if (statut.getD "") == "" then "validé" else statut.getD "",
        notes := notes.getD "", numReference := numReference.getD "",
        createdAt := some (.fromNow now) }
    { status := 200, coll := paiements ++ [(freshId, doc)],
      ops := [StoreOp.addDoc "historiquePaiement" freshId,
              StoreOp.read "historiquePaiement" freshId] }
  else
    { status := 400, error := some "Firebase non disponible",
      coll := paiements, ops := [] }

/-- `POST /api/pieces`, document-store branch: require `nomPieces`, `prix`,
`typeId`; read the part type (404 when missing), scan the collection to mint a
count-based `PR-` id, write the part and read it back.  The outcome carries
the `piecesReparables` collection and the trace also covers the `typesPieces`
read. -/
def postPiecesFirebase (nomPieces prix typeId : Option String)
    (typesPieces : List (String × PieceType))
    (piecesReparables : List (String × Piece)) (now : Nat) : ApiOut Piece :=
  if (nomPieces.getD "") == "" || (prix.getD "") == "" || (typeId.getD "") == "" then
    { status := 400, error := some "nomPieces, prix et typeId sont requis",
      coll := piecesReparables, ops := [] }
  else
    let tid := typeId.getD ""
    match getDoc typesPieces tid with
    | none =>
      { status := 404, error := some "Type de pièce non trouvé",
        coll := piecesReparables, ops := [StoreOp.read "typesPieces" tid] }
    | some t =>
      let newId := mintPieceIdFirebase (docKeys piecesReparables)
      let piece : Piece :=
        { nomPieces := nomPieces.getD "", prix := prix.getD "",
          type := some { _id := tid, nomTypePieces := t.nomTypePieces },
          createdAt := some (.fromNow now), updatedAt := some (.fromNow now) }
      { status := 200, coll := setDoc piecesReparables newId piece,
        ops := [StoreOp.read "typesPieces" tid,
                StoreOp.readAll "piecesReparables",
                StoreOp.write "piecesReparables" newId,
                StoreOp.read "piecesReparables" newId] }

/-- `POST /api/typesPieces`, document-store branch: require `nomTypePieces`;
`add` the part type under a store-generated id and read it back. -/
def postTypesPiecesFirebase (nomTypePieces : Option String)
    (typesPieces : List (String × PieceType)) (freshId : String) (now : Nat) :
    ApiOut PieceType :=
  if (nomTypePieces.getD "") == "" then
    { status := 400, error := some "nomTypePieces est requis",
      coll := typesPieces, ops := [] }
  else
    let doc : PieceType :=
      { nomTypePieces := nomTypePieces.getD "",
        createdAt := some (.fromNow now), updatedAt := some (.fromNow now) }
    { status := 200, coll := typesPieces ++ [(freshId, doc)],
      ops := [StoreOp.addDoc "typesPieces" freshId,
              StoreOp.read "typesPieces" freshId] }

/-! ## Helper lemmas -/

theorem getDoc_removeDoc_self {α : Type} (c : List (String × α)) (k : String) :
    getDoc (removeDoc c k) k = none := by
  induction c with
  | nil => rfl
  | cons x xs ih =>
    by_cases hx : x.1 == k
    · simpa [removeDoc, List.filter_cons, hx] using ih
    · simp only [removeDoc, List.filter_cons, hx] at ih ⊢
      simpa [getDoc, List.find?_cons, hx] using ih

theorem getDoc_removeDoc_ne {α : Type} (c : List (String × α)) (k j : String)
    (h : j ≠ k) : getDoc (removeDoc c k) j = getDoc c j := by
  induction c with
  | nil => rfl
  | cons x xs ih =>
    by_cases hx : x.1 == k
    · have hxj : (x.1 == j) = false := by
        simp only [beq_iff_eq] at hx
        simp [hx, Ne.symm h]
      simp only [removeDoc, List.filter_cons, hx] at ih ⊢
      simpa [getDoc, List.find?_cons, hxj] using ih
    · by_cases hj : x.1 == j
      · simp [removeDoc, List.filter_cons, hx, getDoc, List.find?_cons, hj]
      · simp only [removeDoc, List.filter_cons, hx] at ih ⊢
        simpa [getDoc, List.find?_cons, hj] using ih

theorem slotReparationFree_removeDoc_self (c : SlotCol) (k : String) :
    slotReparationFree (removeDoc c k) k = true := by
  simp [slotReparationFree, getDoc_removeDoc_self]

theorem slotReparationFree_removeDoc_ne (c : SlotCol) (k j : String) (h : j ≠ k) :
    slotReparationFree (removeDoc c k) j = slotReparationFree c j := by
  simp [slotReparationFree, getDoc_removeDoc_ne c k j h]

theorem scanSlotsReparation_chosen (c : SlotCol) :
    (scanSlotsReparation c slotIdsReparation).2 =
      (if slotReparationFree c "1" then some "1"
       else if slotReparationFree c "2" then some "2"
       else if slotReparationFree c "3" then some "3"
       else none) := by
  by_cases h1 : slotReparationFree c "1" <;>
    by_cases h2 : slotReparationFree c "2" <;>
      by_cases h3 : slotReparationFree c "3" <;>
        simp [scanSlotsReparation, slotIdsReparation, h1, h2, h3]

/-- The selected slot of a valid assign call, as a function of the three
eligibility bits. -/
theorem postSlotReparationAssign_slotId (c : SlotCol) (r : String) (now : Nat)
    (hr : r ≠ "") :
    (postSlotReparationAssign (some r) true c now).resp.slotId =
      (if slotReparationFree c "1" then some "1"
       else if slotReparationFree c "2" then some "2"
       else if slotReparationFree c "3" then some "3"
       else none) := by
  have hr' : (r == "") = false := by simp [hr]
  by_cases h1 : slotReparationFree c "1" <;>
    by_cases h2 : slotReparationFree c "2" <;>
      by_cases h3 : slotReparationFree c "3" <;>
        simp [postSlotReparationAssign, hr', scanSlotsReparation, slotIdsReparation,
          h1, h2, h3]

theorem assign_case1 (c : SlotCol) (r : String) (now : Nat) (hr : (r == "") = false)
    (h1 : slotReparationFree c "1" = true) :
    postSlotReparationAssign (some r) true c now =
      { resp := { status := 200, message := some "Slot assigné avec succès",
                  slotNumber := some 1, slotId := some "1", idReparation := some r },
        state := setDoc c "1" (mergeAssignFields (getDoc c "1") r now),
        ops := [.read "slotReparation" "1", .write "slotReparation" "1"] } := by
  simp [postSlotReparationAssign, hr, scanSlotsReparation, slotIdsReparation, h1]
  decide

theorem assign_case2 (c : SlotCol) (r : String) (now : Nat) (hr : (r == "") = false)
    (h1 : slotReparationFree c "1" = false) (h2 : slotReparationFree c "2" = true) :
    postSlotReparationAssign (some r) true c now =
      { resp := { status := 200, message := some "Slot assigné avec succès",
                  slotNumber := some 2, slotId := some "2", idReparation := some r },
        state := setDoc c "2" (mergeAssignFields (getDoc c "2") r now),
        ops := [.read "slotReparation" "1", .read "slotReparation" "2",
                .write "slotReparation" "2"] } := by
  simp [postSlotReparationAssign, hr, scanSlotsReparation, slotIdsReparation, h1, h2]
  decide

theorem assign_case3 (c : SlotCol) (r : String) (now : Nat) (hr : (r == "") = false)
    (h1 : slotReparationFree c "1" = false) (h2 : slotReparationFree c "2" = false)
    (h3 : slotReparationFree c "3" = true) :
    postSlotReparationAssign (some r) true c now =
      { resp := { status := 200, message := some "Slot assigné avec succès",
                  slotNumber := some 3, slotId := some "3", idReparation := some r },
        state := setDoc c "3" (mergeAssignFields (getDoc c "3") r now),
        ops := [.read "slotReparation" "1", .read "slotReparation" "2",
                .read "slotReparation" "3", .write "slotReparation" "3"] } := by
  simp [postSlotReparationAssign, hr, scanSlotsReparation, slotIdsReparation, h1, h2, h3]
  decide

theorem assign_exhausted (c : SlotCol) (r : String) (now : Nat)
    (hr : (r == "") = false)
    (h1 : slotReparationFree c "1" = false) (h2 : slotReparationFree c "2" = false)
    (h3 : slotReparationFree c "3" = false) :
    postSlotReparationAssign (some r) true c now =
      { resp := { status := 400, error := some "Les trois slots sont déjà occupés" },
        state := c,
        ops := [.read "slotReparation" "1", .read "slotReparation" "2",
                .read "slotReparation" "3"] } := by
  simp [postSlotReparationAssign, hr, scanSlotsReparation, slotIdsReparation, h1, h2, h3]

/-! ## Claim theorems -/

/-- C1: the repair-pool claim operation (`POST /api/slotReparation/assign`)
selects the first eligible slot in ascending canonical order 1, 2, 3: the
selected slot is free and every lower-numbered slot is occupied; on the empty
pool three successive assigns return slots 1, 2, 3 in order; and after
releasing slot k while every other slot stays occupied, the next assign
returns k again. -/
theorem slotReparation_assign_first_free_ascending :
    (∀ (c : SlotCol) (r : String) (now : Nat) (sid : String), r ≠ "" →
      (postSlotReparationAssign (some r) true c now).resp.slotId = some sid →
      slotReparationFree c sid = true ∧
        ∀ j ∈ slotIdsReparation,
          slotIdsReparation.indexOf j < slotIdsReparation.indexOf sid →
          slotReparationFree c j = false) ∧
    (∀ (r1 r2 r3 : String) (n1 n2 n3 : Nat), r1 ≠ "" → r2 ≠ "" → r3 ≠ "" →
      (postSlotReparationAssign (some r1) true [] n1).resp.slotNumber = some 1 ∧
      (postSlotReparationAssign (some r2) true
        (postSlotReparationAssign (some r1) true [] n1).state n2).resp.slotNumber
        = some 2 ∧
      (postSlotReparationAssign (some r3) true
        (postSlotReparationAssign (some r2) true
          (postSlotReparationAssign (some r1) true [] n1).state n2).state n3).resp.slotNumber
        = some 3) ∧
    (∀ (c : SlotCol) (r k : String) (now : Nat), r ≠ "" → k ∈ slotIdsReparation →
      (∀ j ∈ slotIdsReparation, j ≠ k → slotReparationFree c j = false) →
      (postSlotReparationAssign (some r) true (removeDoc c k) now).resp.slotId
        = some k) := by
  refine ⟨?_, ?_, ?_⟩
  · intro c r now sid hr hsel
    rw [postSlotReparationAssign_slotId c r now hr] at hsel
    by_cases h1 : slotReparationFree c "1"
    · rw [if_pos h1] at hsel
      obtain rfl : sid = "1" := by simpa using hsel.symm
      refine ⟨h1, ?_⟩
      intro j hj hlt
      have hj' : j = "1" ∨ j = "2" ∨ j = "3" := by simpa [slotIdsReparation] using hj
      rcases hj' with rfl | rfl | rfl <;>
        exact absurd hlt (by simp [slotIdsReparation])
    · rw [if_neg h1] at hsel
      have h1' : slotReparationFree c "1" = false := by
        simpa using h1
      by_cases h2 : slotReparationFree c "2"
      · rw [if_pos h2] at hsel
        obtain rfl : sid = "2" := by simpa using hsel.symm
        refine ⟨h2, ?_⟩
        intro j hj hlt
        have hj' : j = "1" ∨ j = "2" ∨ j = "3" := by simpa [slotIdsReparation] using hj
        rcases hj' with rfl | rfl | rfl
        · exact h1'
        · exact absurd hlt (by simp [slotIdsReparation])
        · exact absurd hlt (by simp [slotIdsReparation])
      · rw [if_neg h2] at hsel
        have h2' : slotReparationFree c "2" = false := by
          simpa using h2
        by_cases h3 : slotReparationFree c "3"
        · rw [if_pos h3] at hsel
          obtain rfl : sid = "3" := by simpa using hsel.symm
          refine ⟨h3, ?_⟩
          intro j hj hlt
          have hj' : j = "1" ∨ j = "2" ∨ j = "3" := by simpa [slotIdsReparation] using hj
          rcases hj' with rfl | rfl | rfl
          · exact h1'
          · exact h2'
          · exact absurd hlt (by simp [slotIdsReparation])
        · rw [if_neg h3] at hsel
          exact absurd hsel (by simp)
  · intro r1 r2 r3 n1 n2 n3 hr1 hr2 hr3
    have hr1' : (r1 == "") = false := by simp [hr1]
    have hr2' : (r2 == "") = false := by simp [hr2]
    have hr3' : (r3 == "") = false := by simp [hr3]
    have e1 := assign_case1 [] r1 n1 hr1' rfl
    have hstate1 : (postSlotReparationAssign (some r1) true [] n1).state =
        [("1", { idReparation := some r1, startTime := some (.fromNow n1),
                 createdAt := some (.fromNow n1) })] := by
      rw [e1]
      rfl
    have hfree21 : slotReparationFree
        [("1", { idReparation := some r1, startTime := some (.fromNow n1),
                 createdAt := some (.fromNow n1) })] "1" = false := by
      simp [slotReparationFree, getDoc, hr1']
    have e2 := assign_case2
      [("1", ({ idReparation := some r1, startTime := some (.fromNow n1),
                createdAt := some (.fromNow n1) } : SlotDoc))] r2 n2 hr2' hfree21 rfl
    have hstate2 : (postSlotReparationAssign (some r2) true
        (postSlotReparationAssign (some r1) true [] n1).state n2).state =
        [("1", { idReparation := some r1, startTime := some (.fromNow n1),
                 createdAt := some (.fromNow n1) }),
         ("2", { idReparation := some r2, startTime := some (.fromNow n2),
                 createdAt := some (.fromNow n2) })] := by
      rw [hstate1, e2]
      rfl
    refine ⟨by rw [e1], by rw [hstate1, e2], ?_⟩
    have hfree31 : slotReparationFree
        [("1", { idReparation := some r1, startTime := some (.fromNow n1),
                 createdAt := some (.fromNow n1) }),
         ("2", { idReparation := some r2, startTime := some (.fromNow n2),
                 createdAt := some (.fromNow n2) })] "1" = false := by
      simp [slotReparationFree, getDoc, hr1']
    have hfree32 : slotReparationFree
        [("1", { idReparation := some r1, startTime := some (.fromNow n1),
                 createdAt := some (.fromNow n1) }),
         ("2", { idReparation := some r2, startTime := some (.fromNow n2),
                 createdAt := some (.fromNow n2) })] "2" = false := by
      simp [slotReparationFree, getDoc, hr2']
    have e3 := assign_case3
      [("1", ({ idReparation := some r1, startTime := some (.fromNow n1),
                createdAt := some (.fromNow n1) } : SlotDoc)),
       ("2", ({ idReparation := some r2, startTime := some (.fromNow n2),
                createdAt := some (.fromNow n2) } : SlotDoc))] r3 n3 hr3' hfree31 hfree32 rfl
    rw [hstate2, e3]
  · intro c r k now hr hk hocc
    have hr' : (r == "") = false := by simp [hr]
    have hfree : slotReparationFree (removeDoc c k) k = true :=
      slotReparationFree_removeDoc_self c k
    rw [postSlotReparationAssign_slotId _ _ _ hr]
    have hk' : k = "1" ∨ k = "2" ∨ k = "3" := by simpa [slotIdsReparation] using hk
    rcases hk' with rfl | rfl | rfl
    · rw [if_pos hfree]
    · have o1 : slotReparationFree c "1" = false :=
        hocc "1" (by simp [slotIdsReparation]) (by decide)
      rw [slotReparationFree_removeDoc_ne c "2" "1" (by decide)] at *
      rw [if_neg (by simp [slotReparationFree_removeDoc_ne c "2" "1" (by decide), o1]),
        if_pos hfree]
    · have o1 : slotReparationFree c "1" = false :=
        hocc "1" (by simp [slotIdsReparation]) (by decide)
      have o2 : slotReparationFree c "2" = false :=
        hocc "2" (by simp [slotIdsReparation]) (by decide)
      rw [if_neg (by simp [slotReparationFree_removeDoc_ne c "3" "1" (by decide), o1]),
        if_neg (by simp [slotReparationFree_removeDoc_ne c "3" "2" (by decide), o2]),
        if_pos hfree]

/-- Witness for C1: on the concrete empty pool, three successive assigns
return slots 1, 2, 3 in order. -/
theorem slotReparation_assign_first_free_ascending_witness :
    (postSlotReparationAssign (some "A") true [] 0).resp.slotNumber = some 1 ∧
    (postSlotReparationAssign (some "B") true
      (postSlotReparationAssign (some "A") true [] 0).state 1).resp.slotNumber
      = some 2 ∧
    (postSlotReparationAssign (some "C") true
      (postSlotReparationAssign (some "B") true
        (postSlotReparationAssign (some "A") true [] 0).state 1).state 2).resp.slotNumber
      = some 3 :=
  slotReparation_assign_first_free_ascending.2.1 "A" "B" "C" 0 1 2
    (by decide) (by decide) (by decide)

theorem slotReparationFree_iff (c : SlotCol) (sid : String) :
    slotReparationFree c sid = true ↔
      getDoc c sid = none ∨
        ∃ d, getDoc c sid = some d ∧ d.idReparation.getD "" = "" := by
  cases h : getDoc c sid <;> simp [slotReparationFree, h]

/-- C2 counterexample: in the waiting pool, a slot whose document exists with
an empty occupant reference is *not* treated as eligible — with slot 1 present
but empty and slot 2 absent, the next waiting-pool claim takes slot 2, not
slot 1. -/
theorem slotAttente_existing_empty_slot_skipped :
    getDoc ([("1", ({ idReparation := some "" } : SlotDoc))] : SlotCol) "1"
        = some { idReparation := some "" } ∧
    (({ idReparation := some "" } : SlotDoc).idReparation.getD "") = "" ∧
    (postSlotAttente (some "REP-009") (some "2024-06-01") true
        [("1", ({ idReparation := some "" } : SlotDoc))] 0).resp.id = some "2" ∧
    (postSlotAttente (some "REP-009") (some "2024-06-01") true
        [("1", ({ idReparation := some "" } : SlotDoc))] 0).resp.id ≠ some "1" := by
  refine ⟨rfl, rfl, rfl, ?_⟩
  decide

/-- C2 (amended): the two pools use different eligibility tests.  The repair
pool treats a slot as free iff its document is missing or its occupant
reference is empty/absent, and the slot selected by assign satisfies that
predicate; the waiting pool treats a slot as free iff its document does not
exist — position 1 is claimed iff document 1 is missing, position 2 iff
document 1 exists and document 2 is missing, and 409 is returned iff both
documents exist, regardless of their occupant references. -/
theorem slot_claim_eligibility_per_pool :
    (∀ (c : SlotCol) (r : String) (now : Nat) (sid : String), r ≠ "" →
      (postSlotReparationAssign (some r) true c now).resp.slotId = some sid →
      getDoc c sid = none ∨
        ∃ d, getDoc c sid = some d ∧ d.idReparation.getD "" = "") ∧
    (∀ (c : SlotCol) (r t : String) (now : Nat), r ≠ "" → t ≠ "" →
      ((postSlotAttente (some r) (some t) true c now).resp.id = some "1" ↔
        getDoc c "1" = none) ∧
      ((postSlotAttente (some r) (some t) true c now).resp.id = some "2" ↔
        (getDoc c "1").isSome ∧ getDoc c "2" = none) ∧
      ((postSlotAttente (some r) (some t) true c now).resp.status = 409 ↔
        (getDoc c "1").isSome ∧ (getDoc c "2").isSome)) := by
  constructor
  · intro c r now sid hr hsel
    rw [postSlotReparationAssign_slotId c r now hr] at hsel
    by_cases h1 : slotReparationFree c "1"
    · rw [if_pos h1] at hsel
      obtain rfl : sid = "1" := by simpa using hsel.symm
      exact (slotReparationFree_iff c "1").mp h1
    · rw [if_neg h1] at hsel
      by_cases h2 : slotReparationFree c "2"
      · rw [if_pos h2] at hsel
        obtain rfl : sid = "2" := by simpa using hsel.symm
        exact (slotReparationFree_iff c "2").mp h2
      · rw [if_neg h2] at hsel
        by_cases h3 : slotReparationFree c "3"
        · rw [if_pos h3] at hsel
          obtain rfl : sid = "3" := by simpa using hsel.symm
          exact (slotReparationFree_iff c "3").mp h3
        · rw [if_neg h3] at hsel
          exact absurd hsel (by simp)
  · intro c r t now hr ht
    have hr' : (r == "") = false := by simp [hr]
    have ht' : (t == "") = false := by simp [ht]
    cases h1 : getDoc c "1" <;> cases h2 : getDoc c "2" <;>
      simp [postSlotAttente, hr', ht', h1, h2]

/-- Witness for C2's amended theorem: on an empty waiting pool the claim takes
position 1, whose document is missing. -/
theorem slot_claim_eligibility_per_pool_witness :
    (postSlotAttente (some "R") (some "T") true [] 0).resp.id = some "1" :=
  ((slot_claim_eligibility_per_pool.2 [] "R" "T" 0 (by decide) (by decide)).1).mpr rfl

/-- C3: on a fully occupied pool the claim operation fails without performing
any store mutation and leaves the pool unchanged — the repair pool answers 400
with the pool-exhausted message, the waiting pool answers 409 with an error
body. -/
theorem slot_claim_pool_exhausted_no_write :
    (∀ (c : SlotCol) (r : String) (now : Nat), r ≠ "" →
      (∀ sid ∈ slotIdsReparation, slotReparationFree c sid = false) →
      (postSlotReparationAssign (some r) true c now).resp.status = 400 ∧
      (postSlotReparationAssign (some r) true c now).resp.error
          = some "Les trois slots sont déjà occupés" ∧
      (postSlotReparationAssign (some r) true c now).state = c ∧
      mutationsOf (postSlotReparationAssign (some r) true c now).ops = []) ∧
    (∀ (c : SlotCol) (r t : String) (now : Nat), r ≠ "" → t ≠ "" →
      (∀ sid ∈ (["1", "2"] : List String),
        ∃ d, getDoc c sid = some d ∧ d.idReparation.getD "" ≠ "") →
      (postSlotAttente (some r) (some t) true c now).resp.status = 409 ∧
      ((postSlotAttente (some r) (some t) true c now).resp.error).isSome = true ∧
      (postSlotAttente (some r) (some t) true c now).state = c ∧
      mutationsOf (postSlotAttente (some r) (some t) true c now).ops = []) := by
  constructor
  · intro c r now hr hocc
    have hr' : (r == "") = false := by simp [hr]
    have h1 : slotReparationFree c "1" = false := hocc "1" (by simp [slotIdsReparation])
    have h2 : slotReparationFree c "2" = false := hocc "2" (by simp [slotIdsReparation])
    have h3 : slotReparationFree c "3" = false := hocc "3" (by simp [slotIdsReparation])
    rw [assign_exhausted c r now hr' h1 h2 h3]
    exact ⟨rfl, rfl, rfl, rfl⟩
  · intro c r t now hr ht hocc
    have hr' : (r == "") = false := by simp [hr]
    have ht' : (t == "") = false := by simp [ht]
    obtain ⟨d1, hd1, -⟩ := hocc "1" (by simp)
    obtain ⟨d2, hd2, -⟩ := hocc "2" (by simp)
    refine ⟨?_, ?_, ?_, ?_⟩ <;>
      simp [postSlotAttente, hr', ht', hd1, hd2, mutationsOf, StoreOp.isMutation]

/-- Witness for C3 at a concrete fully occupied pair of pools. -/
theorem slot_claim_pool_exhausted_no_write_witness :
    (postSlotReparationAssign (some "R") true
        [("1", ({ idReparation := some "a" } : SlotDoc)),
         ("2", ({ idReparation := some "b" } : SlotDoc)),
         ("3", ({ idReparation := some "c" } : SlotDoc))] 0).resp.status = 400 ∧
    (postSlotAttente (some "R") (some "T") true
        [("1", ({ idReparation := some "a" } : SlotDoc)),
         ("2", ({ idReparation := some "b" } : SlotDoc))] 0).resp.status = 409 := by
  constructor
  · exact (slot_claim_pool_exhausted_no_write.1
      [("1", ({ idReparation := some "a" } : SlotDoc)),
       ("2", ({ idReparation := some "b" } : SlotDoc)),
       ("3", ({ idReparation := some "c" } : SlotDoc))] "R" 0 (by decide)
      (by decide)).1
  · exact (slot_claim_pool_exhausted_no_write.2
      [("1", ({ idReparation := some "a" } : SlotDoc)),
       ("2", ({ idReparation := some "b" } : SlotDoc))] "R" "T" 0 (by decide) (by decide)
      (by decide)).1

/-- The number of occupied, non-metadata slot documents in a pool collection. -/
def occupiedSlotCount (c : SlotCol) : Nat :=
  (c.filter (fun e => !(e.1 == "_metadata") && !((e.2.idReparation.getD "") == ""))).length

/-- C4 counterexample: `GET /api/slotAttente/reset` does not spare the reserved
metadata document.  On a pool holding `_metadata` plus one occupied slot
(M = 1), it reports 2 deletions, not 1, and the metadata document is gone
afterwards. -/
theorem slotAttente_reset_deletes_metadata :
    occupiedSlotCount
        [("_metadata", ({} : SlotDoc)),
         ("1", ({ idReparation := some "REP-001" } : SlotDoc))] = 1 ∧
    (getSlotAttenteReset true
        [("_metadata", ({} : SlotDoc)),
         ("1", ({ idReparation := some "REP-001" } : SlotDoc))]).resp.deleted = some 2 ∧
    some (2 : Nat) ≠ some 1 ∧
    getDoc ([("_metadata", ({} : SlotDoc)),
         ("1", ({ idReparation := some "REP-001" } : SlotDoc))] : SlotCol) "_metadata"
        = some {} ∧
    getDoc (getSlotAttenteReset true
        [("_metadata", ({} : SlotDoc)),
         ("1", ({ idReparation := some "REP-001" } : SlotDoc))]).state "_metadata"
        = none := by
  refine ⟨rfl, rfl, by decide, rfl, rfl⟩

/-- C4 (amended): the reset deletes *every* document of the `slotAttente`
collection, the reserved metadata document included, and reports the total
number of documents; a subsequent list call returns empty.  When no metadata
document is present and every document is occupied, the reported count equals
the number of occupied slots M. -/
theorem slotAttente_reset_clears_all :
    ∀ c : SlotCol,
      (getSlotAttenteReset true c).resp.deleted = some c.length ∧
      (getSlotAttenteReset true c).state = [] ∧
      getSlotAttenteList true (getSlotAttenteReset true c).state = [] ∧
      getDoc (getSlotAttenteReset true c).state "_metadata" = none ∧
      ((∀ e ∈ c, e.1 ≠ "_metadata") → (∀ e ∈ c, e.2.idReparation.getD "" ≠ "") →
        c.length = occupiedSlotCount c) := by
  intro c
  have hcount : (∀ e ∈ c, e.1 ≠ "_metadata") → (∀ e ∈ c, e.2.idReparation.getD "" ≠ "") →
      c.length = occupiedSlotCount c := by
    intro hmeta hocc
    unfold occupiedSlotCount
    rw [List.filter_eq_self.mpr]
    intro e he
    have h1 : (e.1 == "_metadata") = false := by simp [hmeta e he]
    have h2 : ((e.2.idReparation.getD "") == "") = false := by simp [hocc e he]
    simp [h1, h2]
  by_cases hc : c = []
  · subst hc
    exact ⟨rfl, rfl, rfl, rfl, hcount⟩
  · have hlen : (c.length == 0) = false := by
      simp [List.length_eq_zero, hc]
    refine ⟨?_, ?_, ?_, ?_, hcount⟩ <;>
      simp [getSlotAttenteReset, hlen, getSlotAttenteList, getDoc]

/-- The spec's "one more than the maximum numeric suffix among identifiers
matching the prefix" derivation, written out once so the minting functions can
be compared against it. -/
def maxSuffixWith (pre : String) (ids : List String) : Nat :=
  ids.foldl
    (fun acc docId =>
      if strStartsWith docId pre then
        match parseIntLeading (docId.drop pre.length) with
        | some num => if num > acc then num else acc
        | none => acc
      else acc) 0

/-- C5 counterexample: the claim attributes the derivations to the wrong axis.
In document-store mode the part endpoint mints from the collection size, not
the maximum suffix: with one existing document `PR-005` it mints `PR-002`
rather than `PR-006`.  And in fallback mode the repair endpoint mints from the
maximum suffix, not the collection length: with one repair `REP-005` it mints
`REP-006` rather than `REP-002`. -/
theorem mint_mode_attribution_false :
    mintPieceIdFirebase ["PR-005"] = "PR-002" ∧
    "PR-" ++ padStart3 (toString (maxSuffixWith "PR-" ["PR-005"] + 1)) = "PR-006" ∧
    mintPieceIdFirebase ["PR-005"]
        ≠ "PR-" ++ padStart3 (toString (maxSuffixWith "PR-" ["PR-005"] + 1)) ∧
    mintReparationIdFallback [{ _id := some "REP-005" }] = "REP-006" ∧
    "REP-" ++ padStart3 (toString
        (([({ _id := some "REP-005" } : Reparation)]).length + 1)) = "REP-002" ∧
    mintReparationIdFallback [{ _id := some "REP-005" }]
        ≠ "REP-" ++ padStart3 (toString
            (([({ _id := some "REP-005" } : Reparation)]).length + 1)) := by
  refine ⟨rfl, rfl, by decide, rfl, rfl, by decide⟩

theorem repSuffixStep_agree (acc : Nat) (r : Reparation) :
    repSuffixStepFallback acc r = repSuffixStepFirebase acc (r._id.getD "") := by
  unfold repSuffixStepFallback repSuffixStepFirebase
  by_cases h : (r._id.getD "") = ""
  · simp [h, show strStartsWith "" "REP-" = false from rfl]
  · simp [h]

theorem repMax_agree : ∀ (reps : List Reparation) (docIds : List String) (acc : Nat),
    reps.map (fun r => r._id.getD "") = docIds →
    reps.foldl repSuffixStepFallback acc = docIds.foldl repSuffixStepFirebase acc := by
  intro reps
  induction reps with
  | nil =>
    intro docIds acc h
    rw [← h]
    rfl
  | cons r rs ih =>
    intro docIds acc h
    rw [← h]
    simp only [List.map_cons, List.foldl_cons, repSuffixStep_agree]
    exact ih _ _ rfl

/-- C5 (amended): the two derivations differ by collection, not by store mode.
Repair identifiers (`REP-`) are minted from one more than the maximum existing
suffix in *both* modes — the two branches agree whenever the fallback repairs'
`_id` fields match the store's document ids — and part identifiers (`PR-`) are
minted from one more than the collection's size in *both* modes. -/
theorem mint_derivation_per_collection :
    (∀ (docIds : List String) (reps : List Reparation),
      reps.map (fun r => r._id.getD "") = docIds →
      mintReparationIdFallback reps = mintReparationIdFirebase docIds) ∧
    (∀ docIds : List String,
      mintReparationIdFirebase docIds
        = "REP-" ++ padStart3 (toString (maxSuffixWith "REP-" docIds + 1))) ∧
    (∀ (docIds : List String) (pieces : List Piece),
      pieces.length = docIds.length →
      mintPieceIdFallback pieces = mintPieceIdFirebase docIds) := by
  refine ⟨?_, ?_, ?_⟩
  · intro docIds reps h
    unfold mintReparationIdFallback mintReparationIdFirebase repMaxFallback repMaxFirebase
    rw [repMax_agree reps docIds 0 h]
  · intro docIds
    rfl
  · intro docIds pieces h
    unfold mintPieceIdFallback mintPieceIdFirebase
    rw [h]

/-- Witness for C5 at concrete collections. -/
theorem mint_derivation_per_collection_witness :
    mintReparationIdFallback [{ _id := some "REP-007" }]
        = mintReparationIdFirebase ["REP-007"] ∧
    mintPieceIdFallback [{ _id := some "PR-001" }] = mintPieceIdFirebase ["PR-001"] := by
  exact ⟨mint_derivation_per_collection.1 ["REP-007"] [{ _id := some "REP-007" }] rfl,
    mint_derivation_per_collection.2.2 ["PR-001"] [{ _id := some "PR-001" }] rfl⟩

/-- C6: evaluation at the failing input.  In fallback mode,
`PUT /api/reparations/:id` updates the repair's status in the in-memory
dataset and answers 200 without rewriting the seed file, while the sibling
fallback mutations (here `POST /api/reparations`) do rewrite it before
responding. -/
theorem putReparation_fallback_skips_file_write :
    (putReparationFallback "REP-001" (some "EN_COURS")
        { reparations := some [{ _id := some "REP-001", statut := "EN_ATTENTE" }] }).status
        = 200 ∧
    (putReparationFallback "REP-001" (some "EN_COURS")
        { reparations := some [{ _id := some "REP-001", statut := "EN_ATTENTE" }] }).seed
        ≠ { reparations := some [{ _id := some "REP-001", statut := "EN_ATTENTE" }] } ∧
    (putReparationFallback "REP-001" (some "EN_COURS")
        { reparations := some [{ _id := some "REP-001", statut := "EN_ATTENTE" }] }).fileWritten
        = false ∧
    (postReparationsFallback (some { _id := some "V-001" }) none none none none
        { reparations := some [{ _id := some "REP-001", statut := "EN_ATTENTE" }] }
        0).fileWritten = true := by
  refine ⟨rfl, by decide, rfl, rfl⟩

theorem filter_map_snd {β : Type} (p : β → Bool) (docs : List (String × β)) :
    (docs.filter (fun e => p e.2)).map (fun e => e.2)
      = (docs.map (fun e => e.2)).filter p := by
  induction docs with
  | nil => rfl
  | cons e rest ih =>
    by_cases h : p e.2 <;> simp [List.filter_cons, h, ih]

theorem filter_ext {β : Type} (p q : β → Bool) (h : ∀ x, p x = q x) :
    ∀ l : List β, l.filter p = l.filter q := by
  intro l
  induction l with
  | nil => rfl
  | cons x xs ih => simp [List.filter_cons, h x, ih]

/-- C7: each filtered list endpoint returns the same data whether served by
the document store's native equality query or by the fallback linear scan,
whenever the store documents and the fallback dataset agree. -/
theorem filtered_lists_backend_equivalent :
    (∀ (docs : List (String × Reparation)) (reps : List Reparation) (vid : String),
      docs.map (fun e => e.2) = reps →
      (reparationsByVoitureFirestore docs vid).map (fun e => e.2)
        = reparationsByVoitureFallback reps vid) ∧
    (∀ (docs : List (String × Paiement)) (ps : List Paiement) (rid : String),
      docs.map (fun e => e.2) = ps →
      (paiementsByReparationFirestore docs rid).map (fun e => e.2)
        = paiementsByReparationFallback ps rid) ∧
    (∀ (docs : List (String × Paiement)) (ps : List Paiement) (cid : String),
      docs.map (fun e => e.2) = ps →
      (paiementsByClientFirestore docs cid).map (fun e => e.2)
        = paiementsByClientFallback ps cid) := by
  refine ⟨?_, ?_, ?_⟩
  · intro docs reps vid h
    subst h
    rw [reparationsByVoitureFirestore,
      filter_map_snd (fun d => (d.voiture.bind (fun v => v._id)) == some vid) docs]
    apply filter_ext
    intro r
    cases r.voiture with
    | none => rfl
    | some v =>
      show (v._id == some vid)
        = (match v._id with
           | none => false
           | some s => s == vid)
      cases v._id <;> rfl
  · intro docs ps rid h
    subst h
    rw [paiementsByReparationFirestore,
      filter_map_snd (fun d => d.reparationId == some rid) docs]
    apply filter_ext
    intro p
    cases hp : p.reparationId with
    | none => rfl
    | some s => rfl
  · intro docs ps cid h
    subst h
    rw [paiementsByClientFirestore,
      filter_map_snd (fun d => d.clientId == some cid) docs]
    apply filter_ext
    intro p
    cases hp : p.clientId with
    | none => rfl
    | some s => rfl

/-- Witness for C7 at a concrete matching pair of backends. -/
theorem filtered_lists_backend_equivalent_witness :
    (reparationsByVoitureFirestore
        [("REP-001", { _id := some "REP-001", voiture := some { _id := some "V-001" } })]
        "V-001").map (fun e => e.2)
      = reparationsByVoitureFallback
          [{ _id := some "REP-001", voiture := some { _id := some "V-001" } }] "V-001" := by
  exact filtered_lists_backend_equivalent.1
    [("REP-001", { _id := some "REP-001", voiture := some { _id := some "V-001" } })]
    [{ _id := some "REP-001", voiture := some { _id := some "V-001" } }] "V-001" rfl

/-- C8: on every create and claim endpoint, a missing required body field
yields HTTP 400 with an `{error}` body before any document-store access: the
handler performs no store operation and leaves every collection (and, for the
fallback branches, the seed dataset and file) unchanged. -/
theorem create_validation_before_store_access :
    (∀ (idReparation : Option String) (fb : Bool) (c : SlotCol) (now : Nat),
      ((idReparation.getD "" == "")) = true →
      postSlotReparationAssign idReparation fb c now =
        { resp := { status := 400, error := some "idReparation est requis" },
          state := c, ops := [] }) ∧
    (∀ (idReparation startTime : Option String) (fb : Bool) (c : SlotCol) (now : Nat),
      ((idReparation.getD "" == "") || (startTime.getD "" == "")) = true →
      postSlotAttente idReparation startTime fb c now =
        { resp := { status := 400, error := some "idReparation et startTime sont requis" },
          state := c, ops := [] }) ∧
    (∀ (idReparation startTime : Option String) (fb : Bool) (freshId : String)
        (c : SlotCol) (now : Nat),
      ((idReparation.getD "" == "") || (startTime.getD "" == "")) = true →
      postSlotReparation idReparation startTime fb freshId c now =
        { resp := { status := 400, error := some "idReparation et startTime sont requis" },
          state := c, ops := [] }) ∧
    (∀ (marque proprietaireId typeId : Option String) (fb : Bool)
        (props : List (String × Proprietaire)) (tys : List (String × TypeVoiture))
        (vts : List (String × Voiture)) (freshId : String) (now : Nat),
      ((marque.getD "" == "") || (proprietaireId.getD "" == "") ||
        (typeId.getD "" == "")) = true →
      postVoitures marque proprietaireId typeId fb props tys vts freshId now =
        { status := 400, error := some "marque, proprietaireId et typeId sont requis",
          coll := vts, ops := [] }) ∧
    (∀ (uid email nom prenom : Option String) (fb : Bool)
        (props : List (String × Proprietaire)) (now : Nat),
      ((uid.getD "" == "") || (email.getD "" == "") || (nom.getD "" == "") ||
        (prenom.getD "" == "")) = true →
      postProprietaires uid email nom prenom fb props now =
        { status := 400, error := some "uid, email, nom et prenom sont requis",
          coll := props, ops := [] }) ∧
    (∀ (voiture : Option VoitureRef) (pieces : Option (List String))
        (statut description dateDebut : Option String)
        (reparations : List (String × Reparation)) (now : Nat),
      (voiture.bind (fun v => v._id)).getD "" = "" →
      postReparationsFirebase voiture pieces statut description dateDebut reparations now =
        { status := 400, error := some "Le champ voiture avec _id est requis",
          coll := reparations, ops := [] }) ∧
    (∀ (voiture : Option VoitureRef) (pieces : Option (List String))
        (statut description dateDebut : Option String) (seed : SeedData) (now : Nat),
      (voiture.bind (fun v => v._id)).getD "" = "" →
      postReparationsFallback voiture pieces statut description dateDebut seed now =
        { status := 400, error := some "Le champ voiture avec _id est requis",
          seed := seed, fileWritten := false }) ∧
    (∀ (reparation piece dateFinReparation : Option String) (fb : Bool)
        (finReps : List (String × FinReparationPiece)) (freshId : String) (now : Nat),
      ((reparation.getD "" == "") || (piece.getD "" == "") ||
        (dateFinReparation.getD "" == "")) = true →
      postFinReparationPieces reparation piece dateFinReparation fb finReps freshId now =
        { status := 400,
          error := some "reparation, piece et dateFinReparation sont requis",
          coll := finReps, ops := [] }) ∧
    (∀ (reparationId clientId montant datePaiement methode statut notes numReference :
        Option String) (fb : Bool) (ps : List (String × Paiement)) (freshId : String)
        (now : Nat),
      ((reparationId.getD "" == "") || (clientId.getD "" == "") ||
        (montant.getD "" == "") || (datePaiement.getD "" == "")) = true →
      postHistoriquePaiement reparationId clientId montant datePaiement methode statut
          notes numReference fb ps freshId now =
        { status := 400,
          error := some "reparationId, clientId, montant et datePaiement sont requis",
          coll := ps, ops := [] }) ∧
    (∀ (nomPieces prix typeId : Option String) (tps : List (String × PieceType))
        (prs : List (String × Piece)) (now : Nat),
      ((nomPieces.getD "" == "") || (prix.getD "" == "") || (typeId.getD "" == "")) = true →
      postPiecesFirebase nomPieces prix typeId tps prs now =
        { status := 400, error := some "nomPieces, prix et typeId sont requis",
          coll := prs, ops := [] }) ∧
    (∀ (nomPieces prix typeId : Option String) (seed : SeedData),
      ((nomPieces.getD "" == "") || (prix.getD "" == "") || (typeId.getD "" == "")) = true →
      postPiecesFallback nomPieces prix typeId seed =
        { status := 400, error := some "nomPieces, prix et typeId sont requis",
          seed := seed, fileWritten := false }) ∧
    (∀ (nomTypePieces : Option String) (tps : List (String × PieceType))
        (freshId : String) (now : Nat),
      (nomTypePieces.getD "" == "") = true →
      postTypesPiecesFirebase nomTypePieces tps freshId now =
        { status := 400, error := some "nomTypePieces est requis",
          coll := tps, ops := [] }) ∧
    (∀ (nomTypePieces : Option String) (seed : SeedData),
      (nomTypePieces.getD "" == "") = true →
      postTypesPiecesFallback nomTypePieces seed =
        { status := 400, error := some "nomTypePieces est requis",
          seed := seed, fileWritten := false }) := by
  refine ⟨?_, ?_, ?_, ?_, ?_, ?_, ?_, ?_, ?_, ?_, ?_, ?_, ?_⟩
  · intro idReparation fb c now h
    simp [postSlotReparationAssign, h]
  · intro idReparation startTime fb c now h
    simp only [postSlotAttente, h, if_true]
  · intro idReparation startTime fb freshId c now h
    simp only [postSlotReparation, h, if_true]
  · intro marque proprietaireId typeId fb props tys vts freshId now h
    simp only [postVoitures, h, if_true]
  · intro uid email nom prenom fb props now h
    simp only [postProprietaires, h, if_true]
  · intro voiture pieces statut description dateDebut reparations now h
    cases voiture with
    | none => rfl
    | some v =>
      have h0 : v._id.getD "" = "" := h
      have h' : (v._id.getD "" == "") = true := by simp [h0]
      simp only [postReparationsFirebase, h', if_true]
  · intro voiture pieces statut description dateDebut seed now h
    cases voiture with
    | none => rfl
    | some v =>
      have h0 : v._id.getD "" = "" := h
      have h' : (v._id.getD "" == "") = true := by simp [h0]
      simp only [postReparationsFallback, h', if_true]
  · intro reparation piece dateFinReparation fb finReps freshId now h
    simp only [postFinReparationPieces, h, if_true]
  · intro reparationId clientId montant datePaiement methode statut notes numReference
      fb ps freshId now h
    simp only [postHistoriquePaiement, h, if_true]
  · intro nomPieces prix typeId tps prs now h
    simp only [postPiecesFirebase, h, if_true]
  · intro nomPieces prix typeId seed h
    simp only [postPiecesFallback, h, if_true]
  · intro nomTypePieces tps freshId now h
    simp only [postTypesPiecesFirebase, h, if_true]
  · intro nomTypePieces seed h
    simp only [postTypesPiecesFallback, h, if_true]

/-- Witness for C8: the claim endpoint with a missing `idReparation` answers
400 and performs no store operation. -/
theorem create_validation_before_store_access_witness :
    postSlotReparationAssign none true [] 0 =
      { resp := { status := 400, error := some "idReparation est requis" },
        state := [], ops := [] } :=
  create_validation_before_store_access.1 none true [] 0 (by decide)

theorem docKeys_setDoc_subset {α : Type} (c : List (String × α)) (i : String) (d : α) :
    docKeys (setDoc c i d) ⊆ docKeys c ++ [i] := by
  intro x hx
  unfold setDoc at hx
  by_cases h : (List.find? (fun e => e.1 == i) c).isSome = true
  · rw [if_pos h] at hx
    simp only [docKeys, List.map_map, List.mem_map, Function.comp] at hx
    obtain ⟨e, he, hxe⟩ := hx
    by_cases he1 : (e.1 == i) = true
    · rw [if_pos he1] at hxe
      simp only [List.mem_append, List.mem_singleton]
      right
      exact hxe.symm
    · rw [if_neg he1] at hxe
      simp only [List.mem_append]
      left
      exact List.mem_map.mpr ⟨e, he, hxe⟩
  · rw [if_neg h] at hx
    simp only [docKeys, List.map_append] at hx
    exact hx

theorem scan_chosen_mem (c : SlotCol) (sid : String)
    (h : (scanSlotsReparation c slotIdsReparation).2 = some sid) :
    sid ∈ slotIdsReparation := by
  rw [scanSlotsReparation_chosen] at h
  by_cases h1 : slotReparationFree c "1"
  · rw [if_pos h1] at h
    obtain rfl : sid = "1" := by simpa using h.symm
    simp [slotIdsReparation]
  · rw [if_neg h1] at h
    by_cases h2 : slotReparationFree c "2"
    · rw [if_pos h2] at h
      obtain rfl : sid = "2" := by simpa using h.symm
      simp [slotIdsReparation]
    · rw [if_neg h2] at h
      by_cases h3 : slotReparationFree c "3"
      · rw [if_pos h3] at h
        obtain rfl : sid = "3" := by simpa using h.symm
        simp [slotIdsReparation]
      · rw [if_neg h3] at h
        exact absurd h (by simp)

theorem assign_state_cases (b : Option String) (fb : Bool) (c : SlotCol) (now : Nat) :
    (postSlotReparationAssign b fb c now).state = c ∨
    ∃ sid, sid ∈ slotIdsReparation ∧
      (postSlotReparationAssign b fb c now).state
        = setDoc c sid (mergeAssignFields (getDoc c sid) (b.getD "") now) := by
  unfold postSlotReparationAssign
  by_cases hv : (b.getD "" == "") = true
  · rw [if_pos hv]
    left
    rfl
  · rw [if_neg hv]
    by_cases hf : (!fb) = true
    · rw [if_pos hf]
      left
      rfl
    · rw [if_neg hf]
      cases hscan : (scanSlotsReparation c slotIdsReparation).2 with
      | none => left; simp [hscan]
      | some sid =>
        right
        exact ⟨sid, scan_chosen_mem c sid hscan, by simp [hscan]⟩

theorem attente_state_cases (b t : Option String) (fb : Bool) (c : SlotCol) (now : Nat) :
    (postSlotAttente b t fb c now).state = c ∨
    (∃ d, (postSlotAttente b t fb c now).state = setDoc c "1" d) ∨
    (∃ d, (postSlotAttente b t fb c now).state = setDoc c "2" d) := by
  unfold postSlotAttente
  by_cases hv : ((b.getD "" == "") || (t.getD "" == "")) = true
  · rw [if_pos hv]
    left
    rfl
  · rw [if_neg hv]
    by_cases hf : (!fb) = true
    · rw [if_pos hf]
      left
      rfl
    · rw [if_neg hf]
      cases h1 : getDoc c "1" with
      | none =>
        right; left
        refine ⟨{ idReparation := b, startTime := some (.fromString (t.getD "")),
                  createdAt := some (.fromNow now), slotId := some 1 }, ?_⟩
        simp [h1]
      | some d1 =>
        cases h2 : getDoc c "2" with
        | none =>
          right; right
          refine ⟨{ idReparation := b, startTime := some (.fromString (t.getD "")),
                    createdAt := some (.fromNow now), slotId := some 2 }, ?_⟩
          simp [h1, h2]
        | some d2 =>
          left
          simp [h1, h2]

theorem createSlot_state_cases (b t : Option String) (fb : Bool) (freshId : String)
    (c : SlotCol) (now : Nat) :
    (postSlotReparation b t fb freshId c now).state = c ∨
    ∃ d, (postSlotReparation b t fb freshId c now).state = c ++ [(freshId, d)] := by
  unfold postSlotReparation
  by_cases hv : ((b.getD "" == "") || (t.getD "" == "")) = true
  · rw [if_pos hv]
    left
    rfl
  · rw [if_neg hv]
    by_cases hf : fb = true
    · rw [if_pos hf]
      right
      exact ⟨_, rfl⟩
    · rw [if_neg hf]
      left
      rfl

/-- C9 counterexample: `POST /api/slotReparation` (plain create) stores the
new slot under the store-generated identifier, which need not belong to the
pool's canonical range 1, 2, 3. -/
theorem slotReparation_create_non_canonical_id :
    docKeys (postSlotReparation (some "REP-001") (some "2024-06-01") true
        "aUtoGen42xYz" [] 0).state = ["aUtoGen42xYz"] ∧
    "aUtoGen42xYz" ∉ slotIdsReparation := by
  refine ⟨rfl, ?_⟩
  decide

/-- C9 (amended): the two claim operations only ever write slot documents
under the canonical identifiers (assign: 1, 2, 3; waiting-pool claim: 1, 2) —
after either call every document id either already existed or is canonical —
but the plain create endpoint `POST /api/slotReparation` writes under the
store-generated identifier, which is only guaranteed to be the fresh id the
store produced. -/
theorem slot_documents_canonical_by_endpoint :
    (∀ (b : Option String) (fb : Bool) (c : SlotCol) (now : Nat),
      docKeys (postSlotReparationAssign b fb c now).state
        ⊆ docKeys c ++ slotIdsReparation) ∧
    (∀ (b t : Option String) (fb : Bool) (c : SlotCol) (now : Nat),
      docKeys (postSlotAttente b t fb c now).state ⊆ docKeys c ++ ["1", "2"]) ∧
    (∀ (b t : Option String) (fb : Bool) (freshId : String) (c : SlotCol) (now : Nat),
      docKeys (postSlotReparation b t fb freshId c now).state
        ⊆ docKeys c ++ [freshId]) := by
  refine ⟨?_, ?_, ?_⟩
  · intro b fb c now
    rcases assign_state_cases b fb c now with h | ⟨sid, hmem, h⟩
    · rw [h]
      exact List.subset_append_left _ _
    · rw [h]
      intro x hx
      rcases List.mem_append.mp (docKeys_setDoc_subset c sid _ hx) with hx' | hx'
      · exact List.mem_append.mpr (Or.inl hx')
      · obtain rfl : x = sid := List.mem_singleton.mp hx'
        exact List.mem_append.mpr (Or.inr hmem)
  · intro b t fb c now
    rcases attente_state_cases b t fb c now with h | ⟨d, h⟩ | ⟨d, h⟩ <;> rw [h]
    · exact List.subset_append_left _ _
    · intro x hx
      rcases List.mem_append.mp (docKeys_setDoc_subset c "1" d hx) with hx' | hx'
      · exact List.mem_append.mpr (Or.inl hx')
      · obtain rfl : x = "1" := List.mem_singleton.mp hx'
        exact List.mem_append.mpr (Or.inr (by simp))
    · intro x hx
      rcases List.mem_append.mp (docKeys_setDoc_subset c "2" d hx) with hx' | hx'
      · exact List.mem_append.mpr (Or.inl hx')
      · obtain rfl : x = "2" := List.mem_singleton.mp hx'
        exact List.mem_append.mpr (Or.inr (by simp))
  · intro b t fb freshId c now
    rcases createSlot_state_cases b t fb freshId c now with h | ⟨d, h⟩ <;> rw [h]
    · exact List.subset_append_left _ _
    · intro x hx
      simp only [docKeys, List.map_append] at hx
      simpa [docKeys] using hx

/-- C10: `GET /api/health` reports the store-mode flag but always derives its
per-collection counts from the in-memory seed dataset: the response does not
depend on the document store's contents in any mode, so even when
`firebaseConnected` is `true` the counts are the seed counts. -/
theorem health_counts_from_seed_only :
    ∀ (flag : Bool) (seed : SeedData) (s1 s2 : FirestoreState),
      getHealth flag seed s1 = getHealth flag seed s2 ∧
      (getHealth flag seed s1).firebaseConnected = flag ∧
      (getHealth flag seed s1).dataAvailable =
        { voitures := (seed.voitures.map List.length).getD 0,
          clients := (seed.clients.map List.length).getD 0,
          proprietaires := (seed.proprietaires.map List.length).getD 0,
          reparations := (seed.reparations.map List.length).getD 0,
          finReparationPieces := (seed.finReparationPieces.map List.length).getD 0,
          pieces := (seed.piecesReparables.map List.length).getD 0,
          notifications := (seed.notifications.map List.length).getD 0 } := by
  intro flag seed s1 s2
  exact ⟨rfl, rfl, rfl⟩

/-- Witness for C4 on a concrete occupied pool without metadata. -/
theorem slotAttente_reset_clears_all_witness :
    (getSlotAttenteReset true
        [("1", ({ idReparation := some "REP-001" } : SlotDoc)),
         ("2", ({ idReparation := some "REP-002" } : SlotDoc))]).resp.deleted = some 2 ∧
    (2 : Nat) = occupiedSlotCount
        [("1", ({ idReparation := some "REP-001" } : SlotDoc)),
         ("2", ({ idReparation := some "REP-002" } : SlotDoc))] := by
  have h := slotAttente_reset_clears_all
    [("1", ({ idReparation := some "REP-001" } : SlotDoc)),
     ("2", ({ idReparation := some "REP-002" } : SlotDoc))]
  exact ⟨h.1, h.2.2.2.2 (by decide) (by decide)⟩

end GarageServer
